import Mathlib

/-!
Shallow embedding of the HERACLES fitness app (src/coach_bot.py) and
theorems checking the specification claims. The two sqlite tables are
embedded as lists of rows, the button handlers as pure state
transformers, hashlib sha256 hexdigest as an abstract string function
(an external collaborator), temperatures and BMI values as rationals.
-/

namespace Heracles

/-- Row of the sqlite users table: username (UNIQUE), password (the
stored digest text), xp (INTEGER DEFAULT 0). -/
structure UserRow where
  username : String
  password : String
  xp : Int
  deriving DecidableEq

/-- Row of the sqlite workouts table. The date column stores
str(datetime.now()); only its chronological order matters to the
claims, so it is embedded as a numeric timestamp. -/
structure WorkoutRow where
  id : Nat
  user : String
  goal : String
  content : String
  date : Nat
  pinned : Bool
  completed : Bool
  deriving DecidableEq

/-- Persistent state: both tables plus the AUTOINCREMENT counter of the
workouts table. -/
structure DB where
  users : List UserRow
  workouts : List WorkoutRow
  nextWorkoutId : Nat
  deriving DecidableEq

/-- badge(xp) from coach_bot.py lines 53-60: the xp-to-tier mapping. -/
def badge (xp : Int) : String :=
  if xp ≥ 1000 then "🏆 Consistency King"
  else if xp ≥ 500 then "🔥 Fat Burner"
  else if xp ≥ 250 then "💪 Muscle Builder"
  else "👶 Beginner"

/-- Observable outbound call built by generate_ai (coach_bot.py lines
62-67): the model name, the generation_config temperature and the
prompt handed to the external service. -/
structure GenCall where
  modelName : String
  temperature : ℚ
  prompt : String
  deriving DecidableEq

/-- generate_ai(prompt, temp): constructs the model with the given
temperature in generation_config and sends the prompt; the body
performs no validation or clamping of temp. -/
def generate_ai (prompt : String) (temp : ℚ) : GenCall :=
  { modelName := "gemini-2.5-flash", temperature := temp, prompt := prompt }

/-- Fixed piece of the Generate Workout f-string template (coach_bot.py
lines 154-159) before the goal field, with its literal indentation. -/
def promptPre : String := "\n        Create a safe "

/-- Template piece between the goal and level fields. -/
def promptMid1 : String := " workout.\n        Level: "

/-- Template piece between the level and difficulty fields. -/
def promptMid2 : String := "\n        Difficulty: "

/-- Template piece after the difficulty field. -/
def promptPost : String := "/10.\n        Structured format.\n        "

/-- Prompt built by the Generate Workout handler from the three form
fields goal, level and difficulty; the template is unconditional. -/
def buildPrompt (goal level : String) (difficulty : Nat) : String :=
  promptPre ++ goal ++ promptMid1 ++ level ++ promptMid2 ++
    toString difficulty ++ promptPost

/-- Boolean substring occurrence test on lists of characters. -/
def charsContain (sub : List Char) : List Char → Bool
  | [] => sub.isEmpty
  | c :: rest => sub.isPrefixOf (c :: rest) || charsContain sub rest

/-- strContains s sub: sub occurs contiguously inside s. -/
def strContains (s sub : String) : Bool :=
  charsContain sub.data s.data

/-- BMI calculator (coach_bot.py lines 227-231): only when h > 0 is
w / ((h/100)^2) computed; otherwise nothing is computed at all. -/
def bmiCalc (w h : ℚ) : Option ℚ :=
  if h > 0 then some (w / ((h / 100) ^ 2)) else none

/-- round(x, 2) of the source, embedded as round-half-up to two
decimals; it agrees with the round of the source at every argument that
is not an exact tie, and the claims only evaluate it away from ties. -/
def round2 (x : ℚ) : ℚ :=
  ((⌊x * 100 + 1 / 2⌋ : ℤ) : ℚ) / 100

/-- SELECT over users for a username: whether the username is taken. -/
def usernameExists (db : DB) (u : String) : Bool :=
  db.users.any (fun r => r.username == u)

/-- First users row with the given username (cursor fetchone). -/
def findUser (db : DB) (u : String) : Option UserRow :=
  db.users.find? (fun r => r.username == u)

/-- Stored password digest of a username, when the row exists. -/
def lookupPass (db : DB) (u : String) : Option String :=
  (findUser db u).map (fun r => r.password)

/-- Stored xp of a username, when the row exists. -/
def lookupXp (db : DB) (u : String) : Option Int :=
  (findUser db u).map (fun r => r.xp)

/-- Kinds of exception the INSERT of the Register handler can raise:
the UNIQUE(username) constraint violation, or a failure of the database
engine unrelated to the constraint. -/
inductive InsertExc where
  | uniqueViolation
  | otherError
  deriving DecidableEq

/-- INSERT INTO users(username,password) VALUES(?,?) storing hp(p),
where hp embeds hashlib sha256 hexdigest; extFailure models an engine
failure unrelated to the UNIQUE constraint. -/
def registerInsert (hp : String → String) (db : DB) (u p : String)
    (extFailure : Bool) : Except InsertExc DB :=
  if extFailure then Except.error InsertExc.otherError
  else if usernameExists db u then Except.error InsertExc.uniqueViolation
  else Except.ok { db with
    users := db.users ++ [{ username := u, password := hp p, xp := 0 }] }

/-- Register button handler (coach_bot.py lines 104-111): the INSERT in
a try block whose bare except shows "Username exists" whatever the
exception was. Returns the resulting state and the message shown. -/
def registerHandler (hp : String → String) (db : DB) (u p : String)
    (extFailure : Bool) : DB × String :=
  match registerInsert hp db u p extFailure with
  | Except.ok db2 => (db2, "Registered successfully")
  | Except.error _ => (db, "Username exists")

/-- Login check (coach_bot.py lines 92-95): SELECT * FROM users WHERE
username=? AND password=hp(p); success iff a row is fetched. -/
def authenticate (hp : String → String) (db : DB) (u p : String) : Bool :=
  db.users.any (fun r => r.username == u && r.password == hp p)

/-- Change Password handler (coach_bot.py lines 268-273): UPDATE users
SET password=hp(newpass) WHERE username=?; unconditional, with no
validation of newpass. -/
def changePassword (hp : String → String) (db : DB) (u newpass : String) :
    DB :=
  { db with users := db.users.map (fun r =>
      if r.username == u then { r with password := hp newpass } else r) }

/-- Mark Workout Completed handler (coach_bot.py lines 183-188): UPDATE
workouts SET completed=1 WHERE id=?, then UPDATE users SET xp=xp+50
WHERE username=?; both statements run on every press. -/
def markCompleted (db : DB) (u : String) (rid : Nat) : DB :=
  { db with
    workouts := db.workouts.map (fun w =>
      if w.id == rid then { w with completed := true } else w),
    users := db.users.map (fun r =>
      if r.username == u then { r with xp := r.xp + 50 } else r) }

/-- INSERT INTO workouts(user,goal,content,date,pinned,completed)
VALUES(?,?,?,?,0,0) with the AUTOINCREMENT id. -/
def recordWorkout (db : DB) (u goal content : String) (date : Nat) : DB :=
  { db with
    workouts := db.workouts ++
      [{ id := db.nextWorkoutId, user := u, goal := goal,
         content := content, date := date, pinned := false,
         completed := false }],
    nextWorkoutId := db.nextWorkoutId + 1 }

/-- Generate Workout handler (coach_bot.py lines 153-169): generate_ai
runs first and its outcome is an input here; on an exception the
handler aborts before the INSERT runs, on success the plan is inserted
and displayed. -/
def generateWorkoutHandler (db : DB) (u goal : String) (date : Nat)
    (genResult : Except String String) : DB × Option String :=
  match genResult with
  | Except.error _ => (db, none)
  | Except.ok plan => (recordWorkout db u goal plan date, some plan)

/-- Progress Tracking queries (coach_bot.py lines 200-210): completed
workouts of the user, all goals when the filter is "All", otherwise
only rows whose goal equals the filter. -/
def progressQuery (db : DB) (u filterGoal : String) : List WorkoutRow :=
  if filterGoal == "All" then
    db.workouts.filter (fun w => w.user == u && w.completed)
  else
    db.workouts.filter (fun w =>
      w.user == u && w.goal == filterGoal && w.completed)

/-- Sample users row used for concrete evaluations. -/
def sampleUser : UserRow := { username := "alice", password := "d", xp := 0 }

/-- Sample workouts row (not yet completed) owned by alice. -/
def sampleWorkout : WorkoutRow :=
  { id := 1, user := "alice", goal := "Stamina", content := "plan",
    date := 0, pinned := false, completed := false }

/-- Sample database: one user, one uncompleted workout. -/
def sampleDB : DB :=
  { users := [sampleUser], workouts := [sampleWorkout], nextWorkoutId := 2 }

/-- Empty database as created by the CREATE TABLE statements. -/
def emptyDB : DB := { users := [], workouts := [], nextWorkoutId := 1 }

/-- C5: badge maps every non-negative xp to exactly one of the four
tiers via the fixed non-overlapping thresholds, with the stated
boundary values 249, 250, 499, 500, 999 and 1000. -/
theorem badge_spec (xp : Int) (hxp : 0 ≤ xp) :
    ((1000 ≤ xp → badge xp = "🏆 Consistency King") ∧
     (500 ≤ xp ∧ xp < 1000 → badge xp = "🔥 Fat Burner") ∧
     (250 ≤ xp ∧ xp < 500 → badge xp = "💪 Muscle Builder") ∧
     (xp < 250 → badge xp = "👶 Beginner")) ∧
    (badge xp = "🏆 Consistency King" ∨ badge xp = "🔥 Fat Burner" ∨
     badge xp = "💪 Muscle Builder" ∨ badge xp = "👶 Beginner") ∧
    badge 249 = "👶 Beginner" ∧ badge 250 = "💪 Muscle Builder" ∧
    badge 499 = "💪 Muscle Builder" ∧ badge 500 = "🔥 Fat Burner" ∧
    badge 999 = "🔥 Fat Burner" ∧ badge 1000 = "🏆 Consistency King" := by
  refine ⟨⟨?_, ?_, ?_, ?_⟩, ?_, by decide, by decide, by decide,
    by decide, by decide, by decide⟩ <;>
    first
      | (intro h
         unfold badge
         split_ifs <;> first | rfl | omega)
      | (unfold badge
         split_ifs <;> first
           | exact Or.inl rfl
           | exact Or.inr (Or.inl rfl)
           | exact Or.inr (Or.inr (Or.inl rfl))
           | exact Or.inr (Or.inr (Or.inr rfl)))

/-- Witness for badge_spec at xp = 250. -/
theorem badge_spec_witness :
    (0 : Int) ≤ 250 ∧ badge 250 = "💪 Muscle Builder" :=
  ⟨by decide, (badge_spec 250 (by decide)).2.2.2.1⟩

/-- C7: the BMI computation is guarded by h > 0 (nothing is computed
when h ≤ 0, so no division by zero occurs), on positive height it
equals w / ((h/100)^2), and at (70, 175) it rounds to 22.86. -/
theorem bmi_spec :
    (∀ w h : ℚ, h ≤ 0 → bmiCalc w h = none) ∧
    (∀ w h : ℚ, 0 < h → bmiCalc w h = some (w / ((h / 100) ^ 2))) ∧
    (bmiCalc 70 175).map round2 = some (2286 / 100) := by
  refine ⟨?_, ?_, ?_⟩
  · intro w h hh
    simp [bmiCalc, not_lt.mpr hh]
  · intro w h hh
    simp [bmiCalc, hh]
  · have h1 : bmiCalc 70 175 = some (1120 / 49) := by
      norm_num [bmiCalc]
    have h2 : round2 (1120 / 49) = 2286 / 100 := by
      unfold round2
      rw [show ((1120 : ℚ) / 49 * 100 + 1 / 2) = 32007 / 14 by norm_num]
      rw [show ⌊(32007 : ℚ) / 14⌋ = 2286 from by
        rw [Int.floor_eq_iff]
        norm_num]
      norm_num
    rw [h1, Option.map_some', h2]

/-- Witness for bmi_spec: the guard at height 0 and the formula at
(70, 175). -/
theorem bmi_spec_witness :
    bmiCalc 1 0 = none ∧ bmiCalc 70 175 = some (70 / ((175 / 100) ^ 2)) :=
  ⟨bmi_spec.1 1 0 (by norm_num), bmi_spec.2.1 70 175 (by norm_num)⟩

/-- C8: a failed model call leaves the whole persisted state (users and
workouts) unchanged and displays nothing, and a successful call leaves
the users table unchanged while appending exactly one workout row. -/
theorem generateWorkout_no_orphan (db : DB) (u goal : String) (date : Nat)
    (e plan : String) :
    generateWorkoutHandler db u goal date (Except.error e) = (db, none) ∧
    (generateWorkoutHandler db u goal date (Except.ok plan)).1.users =
      db.users ∧
    (generateWorkoutHandler db u goal date (Except.ok plan)).1.workouts =
      db.workouts ++
        [{ id := db.nextWorkoutId, user := u, goal := goal,
           content := plan, date := date, pinned := false,
           completed := false }] :=
  ⟨rfl, rfl, rfl⟩

/-- C2 counterexample: temperature 5 lies outside [0.1, 0.9], yet
generate_ai hands exactly 5 to the external model: it is neither
clamped nor rejected. -/
theorem generate_ai_passes_out_of_range :
    (generate_ai "hi" 5).temperature = 5 ∧
    ¬ ((1 / 10 : ℚ) ≤ (generate_ai "hi" 5).temperature ∧
       (generate_ai "hi" 5).temperature ≤ 9 / 10) := by
  constructor
  · rfl
  · rw [show (generate_ai "hi" 5).temperature = 5 from rfl]
    norm_num

/-- C2 (amended): generate_ai performs no clamping or validation at
all; every temperature is passed through unchanged, together with the
prompt, to the fixed external model. -/
theorem generate_ai_no_clamp (prompt : String) (temp : ℚ) :
    (generate_ai prompt temp).temperature = temp ∧
    (generate_ai prompt temp).modelName = "gemini-2.5-flash" ∧
    (generate_ai prompt temp).prompt = prompt :=
  ⟨rfl, rfl, rfl⟩

/-- C6: the bare except of the Register handler reports every failure
as a duplicate: an engine failure on a fresh username still shows
"Username exists"; a genuine duplicate shows the same message and
leaves the store unchanged, so the two causes are indistinguishable. -/
theorem registerHandler_conflates_failures :
    usernameExists emptyDB "bob" = false ∧
    registerHandler (fun s => s) emptyDB "bob" "pw" true =
      (emptyDB, "Username exists") ∧
    registerHandler (fun s => s)
        ((registerHandler (fun s => s) emptyDB "bob" "pw" false).1)
        "bob" "other" false =
      ((registerHandler (fun s => s) emptyDB "bob" "pw" false).1,
       "Username exists") := by
  refine ⟨by decide, by decide, by decide⟩

/-- Helper: find? by username commutes with mapping a username-preserving
row update over the users table. -/
lemma find_map_username (l : List UserRow) (u : String)
    (f : UserRow → UserRow) (hf : ∀ r, (f r).username = r.username) :
    (l.map f).find? (fun r => r.username == u) =
      (l.find? (fun r => r.username == u)).map f := by
  have hcomp : ((fun r : UserRow => r.username == u) ∘ f) =
      (fun r : UserRow => r.username == u) := by
    funext r
    simp [Function.comp, hf r]
  rw [List.find?_map, hcomp]

/-- Helper: each press of the completion button adds 50 xp to the
stored xp of the user. -/
lemma lookupXp_markCompleted (db : DB) (u : String) (rid : Nat) :
    lookupXp (markCompleted db u rid) u =
      (lookupXp db u).map (fun x => x + 50) := by
  unfold lookupXp findUser markCompleted
  rw [find_map_username]
  · cases hfind : db.users.find? (fun r => r.username == u) with
    | none => rfl
    | some r =>
      have hr : r.username = u := by simpa using List.find?_some hfind
      simp [hr]
  · intro r
    by_cases h : r.username == u <;> simp [h]

/-- Helper: the workouts-table half of the completion handler is
idempotent: setting completed=1 twice equals setting it once. -/
lemma markCompleted_workouts_idem (db : DB) (u : String) (rid : Nat) :
    (markCompleted (markCompleted db u rid) u rid).workouts =
      (markCompleted db u rid).workouts := by
  have hcomp : ((fun w : WorkoutRow =>
        if w.id == rid then { w with completed := true } else w) ∘
      (fun w : WorkoutRow =>
        if w.id == rid then { w with completed := true } else w)) =
      (fun w : WorkoutRow =>
        if w.id == rid then { w with completed := true } else w) := by
    funext w
    by_cases h : w.id == rid <;> simp [Function.comp, h]
  simp only [markCompleted, List.map_map, hcomp]

/-- C1 counterexample: on a store holding alice with 0 xp and workout 1,
one press stores 50 xp, a second press on the same record stores 100 xp,
so the second invocation is not a no-op on the persisted state. -/
theorem markCompleted_double_increments_xp :
    lookupXp (markCompleted sampleDB "alice" 1) "alice" = some 50 ∧
    lookupXp (markCompleted (markCompleted sampleDB "alice" 1) "alice" 1)
      "alice" = some 100 ∧
    markCompleted (markCompleted sampleDB "alice" 1) "alice" 1 ≠
      markCompleted sampleDB "alice" 1 := by
  refine ⟨by decide, by decide, by decide⟩

/-- C1 (amended): marking a second time is a no-op on the workouts table
(the completed flag update is idempotent), but the experience award is
not tied to the 0-to-1 transition: every invocation adds 50 xp, so two
invocations on the same record move the user from x to x+100. -/
theorem markCompleted_partially_idempotent (db : DB) (u : String)
    (rid : Nat) (x : Int) (hx : lookupXp db u = some x) :
    (markCompleted (markCompleted db u rid) u rid).workouts =
      (markCompleted db u rid).workouts ∧
    lookupXp (markCompleted db u rid) u = some (x + 50) ∧
    lookupXp (markCompleted (markCompleted db u rid) u rid) u =
      some (x + 100) := by
  refine ⟨markCompleted_workouts_idem db u rid, ?_, ?_⟩
  · rw [lookupXp_markCompleted, hx]
    rfl
  · rw [lookupXp_markCompleted, lookupXp_markCompleted, hx]
    simp only [Option.map_some']
    congr 1
    omega

/-- Witness for markCompleted_partially_idempotent on the sample
store. -/
theorem markCompleted_partially_idempotent_witness :
    lookupXp sampleDB "alice" = some 0 ∧
    lookupXp (markCompleted (markCompleted sampleDB "alice" 1) "alice" 1)
      "alice" = some (0 + 100) :=
  ⟨by decide, (markCompleted_partially_idempotent sampleDB "alice" 1 0
      (by decide)).2.2⟩

/-- Helper: after the password UPDATE, the stored digest of the user is
the digest of the new password (when the row exists; none stays none). -/
lemma lookupPass_changePassword (hp : String → String) (db : DB)
    (u newpass : String) :
    lookupPass (changePassword hp db u newpass) u =
      (lookupPass db u).map (fun _ => hp newpass) := by
  unfold lookupPass findUser changePassword
  rw [find_map_username]
  · cases hfind : db.users.find? (fun r => r.username == u) with
    | none => rfl
    | some r =>
      have hr : r.username = u := by simpa using List.find?_some hfind
      simp [hr]
  · intro r
    by_cases h : r.username == u <;> simp [h]

/-- C9: registration stores hp(password), the password UPDATE stores
hp(newpass), and the login SELECT compares the stored field against
hp(supplied): only digests are stored and compared, never the supplied
plain text. -/
theorem passwords_digest_only (hp : String → String) (db : DB)
    (u p : String) :
    (usernameExists db u = false →
      lookupPass ((registerHandler hp db u p false).1) u = some (hp p)) ∧
    (usernameExists db u = true →
      lookupPass (changePassword hp db u p) u = some (hp p)) ∧
    authenticate hp db u p =
      db.users.any (fun r => r.username == u && r.password == hp p) := by
  refine ⟨?_, ?_, rfl⟩
  · intro hfree
    have hnone : db.users.find? (fun r => r.username == u) = none := by
      rw [List.find?_eq_none]
      intro r hr
      exact List.any_eq_false.mp hfree r hr
    have h1 : registerInsert hp db u p false =
        Except.ok { db with
          users := db.users ++ [{ username := u, password := hp p, xp := 0 }] } := by
      unfold registerInsert
      rw [if_neg (by simp), if_neg (by simp [hfree])]
    have hreg : (registerHandler hp db u p false).1.users =
        db.users ++ [{ username := u, password := hp p, xp := 0 }] := by
      unfold registerHandler
      rw [h1]
    unfold lookupPass findUser
    rw [hreg, List.find?_append, hnone, Option.none_or,
      List.find?_cons_of_pos _ (by simp)]
    rfl
  · intro hex
    rw [lookupPass_changePassword]
    obtain ⟨r, hr, hpred⟩ := List.any_eq_true.mp hex
    have hsome : (db.users.find? fun r => r.username == u).isSome :=
      List.find?_isSome.mpr ⟨r, hr, hpred⟩
    obtain ⟨r2, hfind⟩ := Option.isSome_iff_exists.mp hsome
    unfold lookupPass findUser
    rw [hfind]
    rfl

/-- Demonstration digest function used by concrete witnesses. -/
def hpDemo (s : String) : String := "digest:" ++ s

/-- Witness for passwords_digest_only: registering alice over the empty
store persists the digest of "pw". -/
theorem passwords_digest_only_witness :
    usernameExists emptyDB "alice" = false ∧
    lookupPass ((registerHandler hpDemo emptyDB "alice" "pw" false).1)
      "alice" = some (hpDemo "pw") :=
  ⟨by decide, (passwords_digest_only hpDemo emptyDB "alice" "pw").1
      (by decide)⟩

/-- Helper: any over a pointwise conjunction with a constant. -/
lemma any_and_const (l : List UserRow) (q : UserRow → Bool) (c : Bool) :
    (l.any fun r => q r && c) = (l.any q && c) := by
  cases c
  · induction l with
    | nil => simp
    | cons a t ih => simp [List.any_cons, ih]
  · simp

/-- Helper: after the password UPDATE, the login SELECT succeeds exactly
when the user existed and the digest of the supplied password equals the
digest of the new one. -/
lemma authenticate_changePassword (hp : String → String) (db : DB)
    (u newpass pw : String) :
    authenticate hp (changePassword hp db u newpass) u pw =
      (usernameExists db u && (hp newpass == hp pw)) := by
  unfold authenticate changePassword usernameExists
  rw [List.any_map]
  have hcomp : ((fun r : UserRow => r.username == u && r.password == hp pw) ∘
      fun r => if r.username == u then { r with password := hp newpass }
               else r) =
      fun r : UserRow => r.username == u && (hp newpass == hp pw) := by
    funext r
    by_cases h : r.username == u <;> simp [Function.comp, h]
  rw [hcomp, any_and_const]

/-- C10: for an existing (logged-in) user the password change is
unconditional and unvalidated — any string, the empty one included, is
accepted and its digest stored — and afterwards login succeeds exactly
when the supplied password equals the new one (digests compared under an
injective digest function). -/
theorem changePassword_unvalidated (hp : String → String)
    (hinj : Function.Injective hp) (db : DB) (u newpass pw : String)
    (hex : usernameExists db u = true) :
    lookupPass (changePassword hp db u newpass) u = some (hp newpass) ∧
    (authenticate hp (changePassword hp db u newpass) u pw = true ↔
      pw = newpass) := by
  constructor
  · rw [lookupPass_changePassword]
    obtain ⟨r, hr, hpred⟩ := List.any_eq_true.mp hex
    have hsome : (db.users.find? fun r => r.username == u).isSome :=
      List.find?_isSome.mpr ⟨r, hr, hpred⟩
    obtain ⟨r2, hfind⟩ := Option.isSome_iff_exists.mp hsome
    unfold lookupPass findUser
    rw [hfind]
    rfl
  · rw [authenticate_changePassword, hex]
    simp only [Bool.true_and, beq_iff_eq]
    constructor
    · intro h
      exact (hinj h).symm
    · intro h
      rw [h]

/-- Store holding the single registered user alice, for witnesses. -/
def dbAlice : DB := (registerHandler (fun s => s) emptyDB "alice" "pw" false).1

/-- Witness for changePassword_unvalidated: alice changes her password
to the empty string; it is accepted and then authenticates. -/
theorem changePassword_unvalidated_witness :
    usernameExists dbAlice "alice" = true ∧
    lookupPass (changePassword (fun s => s) dbAlice "alice" "") "alice" =
      some "" ∧
    (authenticate (fun s => s) (changePassword (fun s => s) dbAlice "alice" "")
        "alice" "" = true ↔ ("" : String) = "") := by
  refine ⟨by decide, ?_, ?_⟩
  · exact (changePassword_unvalidated (fun s => s) (fun a b h => h) dbAlice
      "alice" "" "" (by decide)).1
  · exact (changePassword_unvalidated (fun s => s) (fun a b h => h) dbAlice
      "alice" "" "" (by decide)).2

/-- Helper: charsContain decides contiguous containment of lists. -/
lemma charsContain_iff (sub l : List Char) :
    charsContain sub l = true ↔ sub <:+: l := by
  induction l with
  | nil =>
    simp only [charsContain, List.isEmpty_iff, List.infix_nil]
  | cons c rest ih =>
    simp only [charsContain, Bool.or_eq_true, ih, List.isPrefixOf_iff_prefix]
    rw [List.infix_cons_iff]

/-- Helper: containment survives prepending on the left. -/
lemma containOfRight {α : Type} (x : List α) {sub y : List α}
    (h : sub <:+: y) : sub <:+: x ++ y := by
  obtain ⟨a, b, rfl⟩ := h
  exact ⟨x ++ a, b, by simp⟩

/-- Helper: containment survives appending on the right. -/
lemma containOfLeft {α : Type} {sub x : List α} (y : List α)
    (h : sub <:+: x) : sub <:+: x ++ y := by
  obtain ⟨a, b, rfl⟩ := h
  exact ⟨a, b ++ y, by simp⟩

/-- Helper: a list is contained in itself followed by anything. -/
lemma containSelf {α : Type} (l r : List α) : l <:+: l ++ r :=
  ⟨[], r, by simp⟩

/-- Helper: strContains at the level of character lists. -/
lemma strContains_iff (s sub : String) :
    strContains s sub = true ↔ sub.data <:+: s.data :=
  charsContain_iff sub.data s.data

/-- C3 (amended): the prompt is one fixed template for every goal —
goal, level and difficulty are interpolated verbatim and the only fixed
content is the request for a safe workout in structured format; no
goal-specific block exists (the template pieces around the fields are
constants independent of the goal). -/
theorem buildPrompt_template (goal level : String) (difficulty : Nat) :
    buildPrompt goal level difficulty =
      promptPre ++ goal ++ promptMid1 ++ level ++ promptMid2 ++
        toString difficulty ++ promptPost ∧
    strContains (buildPrompt goal level difficulty) goal = true ∧
    strContains (buildPrompt goal level difficulty) level = true ∧
    strContains (buildPrompt goal level difficulty) "Create a safe" = true ∧
    strContains (buildPrompt goal level difficulty)
      "Structured format." = true := by
  refine ⟨rfl, ?_, ?_, ?_, ?_⟩ <;>
    rw [strContains_iff] <;>
    simp only [buildPrompt, String.data_append, List.append_assoc]
  · exact containOfRight _ (containSelf _ _)
  · exact containOfRight _ (containOfRight _ (containOfRight _
      (containSelf _ _)))
  · exact containOfLeft _ ((charsContain_iff _ _).mp (by decide))
  · exact containOfRight _ (containOfRight _ (containOfRight _
      (containOfRight _ (containOfRight _ (containOfRight _
        ((charsContain_iff _ _).mp (by decide)))))))

/-- C3 counterexample: the prompt built for the goal "Bodybuilding
(Muscle Gain)" is exactly the short template — it carries no injury
history, diet, focus, safety-rule or goal-specific hypertrophy content,
and the "Fat Burning (Weight Loss)" prompt carries no deficit block. -/
theorem buildPrompt_missing_fields :
    buildPrompt "Bodybuilding (Muscle Gain)" "Beginner" 5 =
      "\n        Create a safe Bodybuilding (Muscle Gain) workout.\n        Level: Beginner\n        Difficulty: 5/10.\n        Structured format.\n        " ∧
    strContains (buildPrompt "Bodybuilding (Muscle Gain)" "Beginner" 5)
      "injur" = false ∧
    strContains (buildPrompt "Bodybuilding (Muscle Gain)" "Beginner" 5)
      "diet" = false ∧
    strContains (buildPrompt "Bodybuilding (Muscle Gain)" "Beginner" 5)
      "diagnosis" = false ∧
    strContains (buildPrompt "Bodybuilding (Muscle Gain)" "Beginner" 5)
      "hypertrophy" = false ∧
    strContains (buildPrompt "Fat Burning (Weight Loss)" "Beginner" 5)
      "deficit" = false := by
  refine ⟨by decide, by decide, by decide, by decide, by decide, by decide⟩

/-- C4 counterexample: alice owns an (uncompleted) workout record, yet
the Progress Tracking query returns the empty list both unfiltered and
filtered by its goal: the query does not return the user's workout
records, only the completed ones. -/
theorem progressQuery_misses_uncompleted :
    sampleWorkout ∈ sampleDB.workouts ∧ sampleWorkout.user = "alice" ∧
    progressQuery sampleDB "alice" "All" = [] ∧
    progressQuery sampleDB "alice" "Stamina" = [] := by
  refine ⟨by decide, by decide, by decide, by decide⟩

/-- C4 (amended): the query returns exactly the user's completed
records matching the goal filter, in table (insertion) order; whenever
the stored dates are nondecreasing in table order — which holds since
rows are appended with the current time — the result is ordered by
created_at ascending. -/
theorem progressQuery_spec (db : DB) (u g : String)
    (hdates : db.workouts.Pairwise (fun a b => a.date ≤ b.date)) :
    (∀ w, w ∈ progressQuery db u g ↔
      w ∈ db.workouts ∧ w.user = u ∧ (g = "All" ∨ w.goal = g) ∧
        w.completed = true) ∧
    (progressQuery db u g).Pairwise (fun a b => a.date ≤ b.date) := by
  constructor
  · intro w
    by_cases hg : g = "All"
    · subst hg
      simp [progressQuery, List.mem_filter, and_assoc]
    · unfold progressQuery
      rw [if_neg (by simp [hg])]
      simp [List.mem_filter, hg, and_assoc]
  · unfold progressQuery
    split_ifs <;> exact List.Pairwise.filter _ hdates

/-- Completed workout of alice used by concrete evaluations. -/
def sampleCompletedWorkout : WorkoutRow :=
  { id := 2, user := "alice", goal := "Stamina", content := "plan2",
    date := 1, pinned := false, completed := true }

/-- Store with one uncompleted and one completed workout of alice. -/
def sampleDB2 : DB :=
  { users := [sampleUser],
    workouts := [sampleWorkout, sampleCompletedWorkout],
    nextWorkoutId := 3 }

/-- Witness for progressQuery_spec on a concrete two-row store with
nondecreasing dates. -/
theorem progressQuery_spec_witness :
    (sampleCompletedWorkout ∈ progressQuery sampleDB2 "alice" "All" ↔
      sampleCompletedWorkout ∈ sampleDB2.workouts ∧
        sampleCompletedWorkout.user = "alice" ∧
        (("All" : String) = "All" ∨ sampleCompletedWorkout.goal = "All") ∧
        sampleCompletedWorkout.completed = true) ∧
    (progressQuery sampleDB2 "alice" "All").Pairwise
      (fun a b => a.date ≤ b.date) :=
  ⟨(progressQuery_spec sampleDB2 "alice" "All" (by decide)).1
      sampleCompletedWorkout,
   (progressQuery_spec sampleDB2 "alice" "All" (by decide)).2⟩

end Heracles
